import Mathlib

/-!
Verification of the key-value file store in `src/src-tauri/src/storage.rs`.

The Rust module exposes three Tauri commands — `read_storage`, `write_storage`,
`remove_storage` — that persist one file `<key>.json` per key inside the
application data directory resolved by the host runtime.

We embed the module shallowly: the filesystem visible to the module is a state
`FS` carrying the outcome of `app.path().app_data_dir()` (`appDataDir`), the
set of existing directories (`dirs`), the files as a map from path strings to
contents (`files`), and fault injections for each fallible OS call
(`readErr`, `writeErr`, `removeErr`, `mkdirErr`), each giving the OS error
text when the corresponding call on that path fails.  Each Rust command
becomes a Lean function on `FS`; the state-changing ones return the updated
state alongside the `Result`, mirroring `Result<_, String>` with
`Except String _`.
-/

namespace Storage

/-- The filesystem environment the Rust module runs against. -/
structure FS where
  /-- Outcome of `app.path().app_data_dir().map_err(|e| e.to_string())`:
  either the resolved directory path or the failure's textual description. -/
  appDataDir : Except String String
  /-- Directories that currently exist. -/
  dirs : List String
  /-- Files: path string to content, `none` when the path does not exist. -/
  files : String → Option String
  /-- Fault injection: OS error text when `fs::read_to_string` fails on a path. -/
  readErr : String → Option String
  /-- Fault injection: OS error text when `fs::write` fails on a path. -/
  writeErr : String → Option String
  /-- Fault injection: OS error text when `fs::remove_file` fails on a path. -/
  removeErr : String → Option String
  /-- Fault injection: OS error text when `fs::create_dir_all` fails on a directory. -/
  mkdirErr : String → Option String

/-- `Path::join(base, name)` on Unix: when `name` is absolute (its first
character is the separator) it replaces `base` entirely; otherwise it is
appended as a further component, inserting a separator unless `base` is empty
or already ends with one. -/
def pathJoin (base name : String) : String :=
  if name.data.head? = some '/' then name
  else if base.data.getLast? = some '/' ∨ base = "" then base ++ name
  else base ++ "/" ++ name

/-- `app_data_dir.join(format!("{}.json", key))`: the backing file path. -/
def filePath (dir key : String) : String :=
  pathJoin dir (key ++ ".json")

/-- Effect of a successful `fs::create_dir_all(&app_data_dir)` on the set of
existing directories: the directory is created if it does not exist. -/
def createDirAll (dir : String) (dirs : List String) : List String :=
  if dirs.contains dir then dirs else dir :: dirs

/-- Effect of a successful `fs::write(file_path, value)`: the file now holds
exactly `value`, every other path is untouched. -/
def setFile (path content : String) (files : String → Option String) :
    String → Option String :=
  fun p => if p = path then some content else files p

/-- Effect of a successful `fs::remove_file(file_path)`: the file is gone,
every other path is untouched. -/
def deleteFile (path : String) (files : String → Option String) :
    String → Option String :=
  fun p => if p = path then none else files p

/-- `read_storage(key, app)`: resolve the data directory (propagating the
resolution failure), return `"null"` when the backing file does not exist,
otherwise the result of `fs::read_to_string` on it.  Reads never mutate
state, so only the `Result` is returned. -/
def read_storage (key : String) (fs : FS) : Except String String :=
  match fs.appDataDir with
  | .error e => .error e
  | .ok app_data_dir =>
    match fs.files (filePath app_data_dir key),
          fs.readErr (filePath app_data_dir key) with
    | none, _ => .ok "null"
    | some _, some e => .error e
    | some content, none => .ok content

/-- `write_storage(key, value, app)`: resolve the data directory, create it
with `fs::create_dir_all`, then `fs::write` the value as the whole file
content.  Returns the `Result` and the filesystem after the call. -/
def write_storage (key value : String) (fs : FS) : Except String Unit × FS :=
  match fs.appDataDir with
  | .error e => (.error e, fs)
  | .ok app_data_dir =>
    match fs.mkdirErr app_data_dir with
    | some e => (.error e, fs)
    | none =>
      match fs.writeErr (filePath app_data_dir key) with
      | some e => (.error e, { fs with dirs := createDirAll app_data_dir fs.dirs })
      | none =>
        (.ok (), { fs with
          dirs := createDirAll app_data_dir fs.dirs,
          files := setFile (filePath app_data_dir key) value fs.files })

/-- `remove_storage(key, app)`: resolve the data directory; when the backing
file exists, `fs::remove_file` it; otherwise succeed without touching
anything.  Returns the `Result` and the filesystem after the call. -/
def remove_storage (key : String) (fs : FS) : Except String Unit × FS :=
  match fs.appDataDir with
  | .error e => (.error e, fs)
  | .ok app_data_dir =>
    match fs.files (filePath app_data_dir key) with
    | none => (.ok (), fs)
    | some _ =>
      match fs.removeErr (filePath app_data_dir key) with
      | some e => (.error e, fs)
      | none =>
        (.ok (), { fs with files := deleteFile (filePath app_data_dir key) fs.files })

/-- A healthy filesystem: resolution yields `dir`, nothing exists yet and no
OS call is faulted. -/
def fsEmpty (dir : String) : FS :=
  { appDataDir := .ok dir
    dirs := []
    files := fun _ => none
    readErr := fun _ => none
    writeErr := fun _ => none
    removeErr := fun _ => none
    mkdirErr := fun _ => none }

/-- Healthy filesystem already holding the document `"doc"` under key `"k"`. -/
def fsWithDoc : FS :=
  { fsEmpty "app" with
    dirs := ["app"]
    files := fun p => if p = filePath "app" "k" then some "doc" else none }

/-- Filesystem whose data-directory resolution fails. -/
def fsBadResolve : FS :=
  { fsEmpty "app" with appDataDir := .error "could not resolve app data dir" }

/-- Healthy filesystem except that writing the backing file of `"k"` fails. -/
def fsWriteFault : FS :=
  { fsEmpty "app" with
    writeErr := fun p => if p = filePath "app" "k" then some "disk full" else none }

/-- Filesystem holding a document under `"k"` whose backing file cannot be read. -/
def fsReadFault : FS :=
  { fsWithDoc with
    readErr := fun p => if p = filePath "app" "k" then some "permission denied" else none }

/-- Right cancellation of string append, via the underlying character lists. -/
theorem string_append_cancel_right {s1 s2 t : String} (h : s1 ++ t = s2 ++ t) :
    s1 = s2 := by
  have h2 : s1.data ++ t.data = s2.data ++ t.data := by
    rw [← String.data_append, ← String.data_append, h]
  have h3 := List.append_cancel_right h2
  cases s1; cases s2; exact congrArg String.mk h3

/-- Left cancellation of string append, via the underlying character lists. -/
theorem string_append_cancel_left {s t1 t2 : String} (h : s ++ t1 = s ++ t2) :
    t1 = t2 := by
  have h2 : s.data ++ t1.data = s.data ++ t2.data := by
    rw [← String.data_append, ← String.data_append, h]
  have h3 := List.append_cancel_left h2
  cases t1; cases t2; exact congrArg String.mk h3

/-- The file name built from a key containing no path separator is not an
absolute path, so `Path::join` appends it instead of replacing the base. -/
theorem keyName_not_absolute {k : String} (h : '/' ∉ k.data) :
    (k ++ ".json").data.head? ≠ some '/' := by
  rw [String.data_append]
  cases hk : k.data with
  | nil => decide
  | cons c cs =>
    have hc : c ≠ '/' := by
      intro hc
      exact h (by rw [hk, ← hc]; exact List.mem_cons_self c cs)
    simp [hc]

/-- Distinct keys containing no path separator map to distinct backing file
paths.  (Keys containing the separator need not: an absolute key replaces the
data directory in `Path::join`, see the counterexample below.) -/
theorem filePath_injective (dir : String) {k1 k2 : String}
    (h1 : '/' ∉ k1.data) (h2 : '/' ∉ k2.data) (hne : k1 ≠ k2) :
    filePath dir k1 ≠ filePath dir k2 := by
  have n1 := keyName_not_absolute h1
  have n2 := keyName_not_absolute h2
  unfold filePath pathJoin
  rw [if_neg n1, if_neg n2]
  by_cases hb : dir.data.getLast? = some '/' ∨ dir = ""
  · rw [if_pos hb, if_pos hb]
    intro he
    exact hne (string_append_cancel_right (string_append_cancel_left he))
  · rw [if_neg hb, if_neg hb]
    intro he
    have he2 : (dir ++ "/") ++ (k1 ++ ".json") = (dir ++ "/") ++ (k2 ++ ".json") := by
      simpa [String.append_assoc] using he
    exact hne (string_append_cancel_right (string_append_cancel_left he2))

/-- The directory is in the set of directories after `fs::create_dir_all`. -/
theorem mem_createDirAll (dir : String) (dirs : List String) :
    dir ∈ createDirAll dir dirs := by
  unfold createDirAll
  split
  · next h => exact List.mem_of_elem_eq_true h
  · exact List.mem_cons_self dir dirs

/-- C1: a successful `write_storage k v` followed by `read_storage k` on the
resulting state returns exactly `v`, with no transformation of the content. -/
theorem write_then_read_roundtrip (key value dir : String) (fs : FS)
    (hdir : fs.appDataDir = .ok dir)
    (hmk : fs.mkdirErr dir = none)
    (hw : fs.writeErr (filePath dir key) = none)
    (hr : fs.readErr (filePath dir key) = none) :
    (write_storage key value fs).1 = .ok () ∧
    read_storage key (write_storage key value fs).2 = .ok value := by
  simp [write_storage, read_storage, hdir, hmk, hw, hr, setFile]

/-- Witness for C1 at a concrete healthy filesystem. -/
theorem write_then_read_roundtrip_witness :
    (write_storage "k" "v" (fsEmpty "app")).1 = .ok () ∧
    read_storage "k" (write_storage "k" "v" (fsEmpty "app")).2 = .ok "v" :=
  write_then_read_roundtrip "k" "v" "app" (fsEmpty "app") rfl rfl rfl rfl

/-- C2: when the backing file of `k` does not exist, `read_storage k`
succeeds and returns the literal four-character string `"null"`. -/
theorem read_missing_returns_null (key dir : String) (fs : FS)
    (hdir : fs.appDataDir = .ok dir)
    (habs : fs.files (filePath dir key) = none) :
    read_storage key fs = .ok "null" := by
  simp [read_storage, hdir, habs]

/-- Witness for C2 on the fresh filesystem. -/
theorem read_missing_returns_null_witness :
    read_storage "unknown-key" (fsEmpty "app") = .ok "null" :=
  read_missing_returns_null "unknown-key" "app" (fsEmpty "app") rfl rfl

/-- C3: writing `v1` then `v2` under the same key and then reading returns
`v2`: the second write replaces the content entirely, no append or merge. -/
theorem write_overwrites_fully (key v1 v2 dir : String) (fs : FS)
    (hdir : fs.appDataDir = .ok dir)
    (hmk : fs.mkdirErr dir = none)
    (hw : fs.writeErr (filePath dir key) = none)
    (hr : fs.readErr (filePath dir key) = none) :
    (write_storage key v1 fs).1 = .ok () ∧
    (write_storage key v2 (write_storage key v1 fs).2).1 = .ok () ∧
    read_storage key (write_storage key v2 (write_storage key v1 fs).2).2 = .ok v2 := by
  simp [write_storage, read_storage, hdir, hmk, hw, hr, setFile]

/-- Witness for C3 at a concrete healthy filesystem. -/
theorem write_overwrites_fully_witness :
    (write_storage "k" "v1" (fsEmpty "app")).1 = .ok () ∧
    (write_storage "k" "v2" (write_storage "k" "v1" (fsEmpty "app")).2).1 = .ok () ∧
    read_storage "k" (write_storage "k" "v2" (write_storage "k" "v1" (fsEmpty "app")).2).2 = .ok "v2" :=
  write_overwrites_fully "k" "v1" "v2" "app" (fsEmpty "app") rfl rfl rfl rfl

/-- C4: when the backing file of `k` does not exist, `remove_storage k`
succeeds and leaves the filesystem completely unchanged — in particular it
creates no directory. -/
theorem remove_missing_is_noop (key dir : String) (fs : FS)
    (hdir : fs.appDataDir = .ok dir)
    (habs : fs.files (filePath dir key) = none) :
    remove_storage key fs = (.ok (), fs) := by
  simp [remove_storage, hdir, habs]

/-- Witness for C4 on the fresh filesystem. -/
theorem remove_missing_is_noop_witness :
    remove_storage "k" (fsEmpty "app") = (.ok (), fsEmpty "app") :=
  remove_missing_is_noop "k" "app" (fsEmpty "app") rfl rfl

/-- C5: when data-directory resolution fails with description `e`, all three
operations fail with exactly `e` and perform no filesystem change. -/
theorem resolution_failure_propagates (key value e : String) (fs : FS)
    (herr : fs.appDataDir = .error e) :
    read_storage key fs = .error e ∧
    write_storage key value fs = (.error e, fs) ∧
    remove_storage key fs = (.error e, fs) := by
  simp [read_storage, write_storage, remove_storage, herr]

/-- Witness for C5 on a filesystem whose resolution fails. -/
theorem resolution_failure_propagates_witness :
    read_storage "k" fsBadResolve = .error "could not resolve app data dir" ∧
    write_storage "k" "v" fsBadResolve = (.error "could not resolve app data dir", fsBadResolve) ∧
    remove_storage "k" fsBadResolve = (.error "could not resolve app data dir", fsBadResolve) :=
  resolution_failure_propagates "k" "v" "could not resolve app data dir" fsBadResolve rfl

/-- C6 counterexample: the claim fails for arbitrary distinct keys.  With
data directory "/data", the keys "x" and "/data/x" are distinct, yet the
second yields the absolute file name "/data/x.json", which `Path::join`
takes verbatim — the very backing file of "x".  Writing under "/data/x"
therefore changes what reading "x" returns. -/
theorem distinct_keys_interfere_counterexample :
    "x" ≠ "/data/x" ∧
    filePath "/data" "x" = filePath "/data" "/data/x" ∧
    read_storage "x" (fsEmpty "/data") = .ok "null" ∧
    read_storage "x" (write_storage "/data/x" "v" (fsEmpty "/data")).2 = .ok "v" := by
  refine ⟨by decide, rfl, rfl, rfl⟩

/-- C6, amended: operations on a key `k2` leave the result of reading any
distinct key `k1` unchanged — for both `write_storage` and `remove_storage` —
provided neither key contains the path separator, so that neither backing
file name is absolute or multi-component; and in the concrete scenario
write("a","1"); write("b","2"); remove("a"), reading "a" gives `"null"`
while reading "b" still gives `"2"`. -/
theorem distinct_keys_do_not_interfere (k1 k2 v dir : String) (fs : FS)
    (hdir : fs.appDataDir = .ok dir) (hne : k1 ≠ k2)
    (h1 : '/' ∉ k1.data) (h2 : '/' ∉ k2.data) :
    read_storage k1 (write_storage k2 v fs).2 = read_storage k1 fs ∧
    read_storage k1 (remove_storage k2 fs).2 = read_storage k1 fs ∧
    read_storage "a" (remove_storage "a"
      (write_storage "b" "2" (write_storage "a" "1" (fsEmpty "d")).2).2).2 = .ok "null" ∧
    read_storage "b" (remove_storage "a"
      (write_storage "b" "2" (write_storage "a" "1" (fsEmpty "d")).2).2).2 = .ok "2" := by
  have hp : filePath dir k1 ≠ filePath dir k2 := filePath_injective dir h1 h2 hne
  refine ⟨?_, ?_, ?_, ?_⟩
  · cases hmk : fs.mkdirErr dir with
    | some e => simp [write_storage, hdir, hmk]
    | none =>
      cases hw : fs.writeErr (filePath dir k2) with
      | some e => simp [write_storage, read_storage, hdir, hmk, hw]
      | none => simp [write_storage, read_storage, hdir, hmk, hw, setFile, hp]
  · cases hf : fs.files (filePath dir k2) with
    | none => simp [remove_storage, hdir, hf]
    | some c =>
      cases hrm : fs.removeErr (filePath dir k2) with
      | some e => simp [remove_storage, read_storage, hdir, hf, hrm]
      | none => simp [remove_storage, read_storage, hdir, hf, hrm, deleteFile, hp]
  · rfl
  · rfl

/-- Witness for C6 with the distinct keys "a" and "b". -/
theorem distinct_keys_do_not_interfere_witness :
    read_storage "a" (write_storage "b" "2" (fsEmpty "d")).2 = read_storage "a" (fsEmpty "d") ∧
    read_storage "a" (remove_storage "b" (fsEmpty "d")).2 = read_storage "a" (fsEmpty "d") ∧
    read_storage "a" (remove_storage "a"
      (write_storage "b" "2" (write_storage "a" "1" (fsEmpty "d")).2).2).2 = .ok "null" ∧
    read_storage "b" (remove_storage "a"
      (write_storage "b" "2" (write_storage "a" "1" (fsEmpty "d")).2).2).2 = .ok "2" :=
  distinct_keys_do_not_interfere "a" "b" "2" "d" (fsEmpty "d") rfl (by decide)
    (by decide) (by decide)

/-- C7: removing an existing document and then reading the same key returns
the literal string `"null"`. -/
theorem remove_then_read_null (key dir c : String) (fs : FS)
    (hdir : fs.appDataDir = .ok dir)
    (hex : fs.files (filePath dir key) = some c)
    (hrm : fs.removeErr (filePath dir key) = none) :
    (remove_storage key fs).1 = .ok () ∧
    read_storage key (remove_storage key fs).2 = .ok "null" := by
  simp [remove_storage, read_storage, hdir, hex, hrm, deleteFile]

/-- Witness for C7 on a filesystem holding a document under "k". -/
theorem remove_then_read_null_witness :
    (remove_storage "k" fsWithDoc).1 = .ok () ∧
    read_storage "k" (remove_storage "k" fsWithDoc).2 = .ok "null" :=
  remove_then_read_null "k" "app" "doc" fsWithDoc rfl rfl rfl

/-- C8: given successful directory resolution, `read_storage k` fails with
message `e` exactly when the backing file exists and reading it fails with
OS error text `e`; whenever the file is absent or readable, it succeeds. -/
theorem read_error_characterization (key dir e : String) (fs : FS)
    (hdir : fs.appDataDir = .ok dir) :
    (read_storage key fs = .error e ↔
      (∃ c, fs.files (filePath dir key) = some c) ∧
        fs.readErr (filePath dir key) = some e) ∧
    (fs.files (filePath dir key) = none ∨ fs.readErr (filePath dir key) = none →
      ∃ v, read_storage key fs = .ok v) := by
  cases hf : fs.files (filePath dir key) with
  | none => simp [read_storage, hdir, hf]
  | some c =>
    cases hre : fs.readErr (filePath dir key) with
    | none => simp [read_storage, hdir, hf, hre]
    | some e2 => simp [read_storage, hdir, hf, hre, eq_comm]

/-- Witness for C8 on a filesystem whose file under "k" cannot be read. -/
theorem read_error_characterization_witness :
    (read_storage "k" fsReadFault = .error "permission denied" ↔
      (∃ c, fsReadFault.files (filePath "app" "k") = some c) ∧
        fsReadFault.readErr (filePath "app" "k") = some "permission denied") ∧
    (fsReadFault.files (filePath "app" "k") = none ∨
        fsReadFault.readErr (filePath "app" "k") = none →
      ∃ v, read_storage "k" fsReadFault = .ok v) :=
  read_error_characterization "k" "app" "permission denied" fsReadFault rfl

/-- C9: after `write_storage k "null"` succeeds, `read_storage k` returns
`"null"` — exactly the result of reading a key with no document, so the two
situations are indistinguishable to a caller. -/
theorem stored_null_indistinguishable_from_absent (key dir : String) (fs : FS)
    (hdir : fs.appDataDir = .ok dir)
    (hmk : fs.mkdirErr dir = none)
    (hw : fs.writeErr (filePath dir key) = none)
    (hr : fs.readErr (filePath dir key) = none) :
    (write_storage key "null" fs).1 = .ok () ∧
    read_storage key (write_storage key "null" fs).2 = .ok "null" ∧
    (fs.files (filePath dir key) = none → read_storage key fs = .ok "null") := by
  refine ⟨?_, ?_, fun habs => ?_⟩
  · simp [write_storage, hdir, hmk, hw]
  · simp [write_storage, read_storage, hdir, hmk, hw, hr, setFile]
  · simp [read_storage, hdir, habs]

/-- Witness for C9 at a concrete healthy filesystem. -/
theorem stored_null_indistinguishable_from_absent_witness :
    (write_storage "k" "null" (fsEmpty "app")).1 = .ok () ∧
    read_storage "k" (write_storage "k" "null" (fsEmpty "app")).2 = .ok "null" ∧
    ((fsEmpty "app").files (filePath "app" "k") = none →
      read_storage "k" (fsEmpty "app") = .ok "null") :=
  stored_null_indistinguishable_from_absent "k" "app" (fsEmpty "app") rfl rfl rfl rfl

/-- C10: when the file write fails after directory creation succeeded,
`write_storage` returns the write failure, yet the data directory it created
persists in the resulting state. -/
theorem failed_write_leaves_created_dir (key value dir e : String) (fs : FS)
    (hdir : fs.appDataDir = .ok dir)
    (hmk : fs.mkdirErr dir = none)
    (hw : fs.writeErr (filePath dir key) = some e) :
    (write_storage key value fs).1 = .error e ∧
    dir ∈ (write_storage key value fs).2.dirs := by
  constructor
  · simp [write_storage, hdir, hmk, hw]
  · simp only [write_storage, hdir, hmk, hw]
    exact mem_createDirAll dir fs.dirs

/-- Witness for C10 on a filesystem whose write of the "k" file fails. -/
theorem failed_write_leaves_created_dir_witness :
    (write_storage "k" "v" fsWriteFault).1 = .error "disk full" ∧
    "app" ∈ (write_storage "k" "v" fsWriteFault).2.dirs :=
  failed_write_leaves_created_dir "k" "v" "app" "disk full" fsWriteFault rfl rfl rfl

end Storage
